import Mathlib

/-!
Shallow embedding of the adf4382 frequency-synthesizer driver
(src/linux/adf4382.c) and proofs about the claims of its specification.

Conventions of the embedding:
  - machine integers are `Nat` (the driver's u64 values fit; overflow of the
    textual parser is checked explicitly against 2 ^ 64);
  - fallible C functions returning a negative errno are modelled as
    `Except ErrNo _`;
  - side effects on the device and on the mutex are recorded as explicit
    event traces (`List Ev`), so that locking discipline and device access
    are propositions about the trace of a call.
-/

set_option autoImplicit false
set_option linter.unusedVariables false

deriving instance DecidableEq for Except

/-- Error taxonomy: the negative errno values the driver's code paths return
(`-EINVAL`, `-ERANGE` from `kstrtoull`, `-EIO` from regmap's address gate,
`-ENOMEM` from allocation). -/
inductive ErrNo
  | einval
  | erange
  | eio
  | enomem
  deriving DecidableEq

/-- Events recorded by a handler invocation: mutex operations
(`mutex_lock` / `mutex_unlock` on `st->lock`) and calls into the
frequency-control engine (`adf4382_set_freq` / `adf4382_get_freq`) or the
device initialization (`adf4382_init`).  `Ev.lock` / `Ev.unlock` are mutex
operations, not device accesses; the remaining events are the
device-state-touching operations. -/
inductive Ev
  | lock
  | unlock
  | setFreq (freq : Nat)
  | getFreq
  | init
  deriving DecidableEq

/-- `struct adf4382_state` (src/linux/adf4382.c lines 24-31): the spi handle,
the regmap handle, the input-clock pointer `clkin` (`none` models the NULL
pointer), and whether `nb.notifier_call` has been set.  The mutex `lock` is
not data; its acquisitions appear in event traces instead. -/
structure AdfState where
  spi : Nat
  regmap : Nat
  clkin : Option Nat
  nbSet : Bool
  deriving DecidableEq

/-- The single attribute identifier (enum value `ADF4382_FREQ = 0`). -/
def ADF4382_FREQ : Nat := 0

/-- `PRE_RATE_CHANGE` notification code (linux/clk.h, `BIT(0)`). -/
def PRE_RATE_CHANGE : Nat := 1

/-- `POST_RATE_CHANGE` notification code (linux/clk.h, `BIT(1)`). -/
def POST_RATE_CHANGE : Nat := 2

/-- `ABORT_RATE_CHANGE` notification code (linux/clk.h, `BIT(2)`). -/
def ABORT_RATE_CHANGE : Nat := 4

/-- `NOTIFY_OK` return value of a notifier callback. -/
def NOTIFY_OK : Nat := 1

/-- `NOTIFY_BAD`-style stop value (`NOTIFY_STOP_MASK` set); used by
`notifier_from_errno` for a nonzero errno. -/
def NOTIFY_BAD : Nat := 0x8002

/-- Digit-consuming loop of the kernel's `_parse_integer` at base 10:
consumes leading decimal digits of the character list, returning the exact
accumulated value, the number of digits consumed, and the unconsumed rest.
(The kernel tracks 64-bit overflow with a flag during accumulation; here the
value is exact and the overflow comparison against `2 ^ 64` is done by the
caller, which is equivalent because accumulation is monotone.) -/
def parseUDecAux : List Char → Nat → Nat → Nat × Nat × List Char
  | c :: cs, acc, cnt =>
    if c.isDigit then parseUDecAux cs (acc * 10 + (c.toNat - 48)) (cnt + 1)
    else (acc, cnt, c :: cs)
  | [], acc, cnt => (acc, cnt, [])

/-- The kernel's `kstrtoull(s, 10, &res)` (lib/kstrtox.c): skip one leading
`+`, consume base-10 digits, fail with `-ERANGE` if the value overflows
64 bits, fail with `-EINVAL` if there were no digits, then allow one
trailing newline; any other trailing character is `-EINVAL`. -/
def kstrtoull10 (s : String) : Except ErrNo Nat :=
  let cs0 := s.data
  let cs :=
    match cs0 with
    | '+' :: rest => rest
    | _ => cs0
  let r := parseUDecAux cs 0 0
  if 2 ^ 64 ≤ r.1 then .error ErrNo.erange
  else if r.2.1 = 0 then .error ErrNo.einval
  else
    let rest2 :=
      match r.2.2 with
      | '\n' :: t => t
      | t => t
    if rest2.isEmpty then .ok r.1 else .error ErrNo.einval

/-- `adf4382_set_freq` (lines 57-60): an unimplemented stub, `return 0;`.
It performs no register write and stores nothing. -/
def adf4382_set_freq (st : AdfState) (freq : Nat) : Except ErrNo Unit :=
  .ok ()

/-- `adf4382_get_freq` (lines 62-65): an unimplemented stub, `return 0;`.
It reports success and leaves the out-parameter `*freq` (passed here by
value and returned) untouched. -/
def adf4382_get_freq (st : AdfState) (freq : Nat) : Except ErrNo Nat :=
  .ok freq

/-- `adf4382_write` (lines 67-92) with the callee `adf4382_set_freq` left as
a parameter `setFreq` (the source calls it at line 82; the concrete driver
instantiates it with the stub, see `adf4382_write`).  Returns the handler's
`ssize_t` result (`.ok len` on success — the C code returns
`ret ? ret : len`) together with the event trace: `mutex_lock`, the
engine call when reached, `mutex_unlock`. -/
def adf4382_write_gen (setFreq : Nat → Except ErrNo Unit) (priv : Nat)
    (buf : String) (len : Nat) : Except ErrNo Nat × List Ev :=
  if priv = ADF4382_FREQ then
    match kstrtoull10 buf with
    | .error e => (.error e, [Ev.lock, Ev.unlock])
    | .ok freq =>
      match setFreq freq with
      | .error e => (.error e, [Ev.lock, Ev.setFreq freq, Ev.unlock])
      | .ok _ => (.ok len, [Ev.lock, Ev.setFreq freq, Ev.unlock])
  else
    (.error ErrNo.einval, [Ev.lock, Ev.unlock])

/-- `adf4382_write` as in the source: the generic handler instantiated with
the driver's own `adf4382_set_freq`. -/
def adf4382_write (st : AdfState) (priv : Nat) (buf : String) (len : Nat) :
    Except ErrNo Nat × List Ev :=
  adf4382_write_gen (adf4382_set_freq st) priv buf len

/-- `adf4382_read` (lines 94-112): `u64 val = 0;` then for the frequency
attribute call `adf4382_get_freq(st, &val)` and on success render via
`sysfs_emit(buf, "%llu\n", val)`; for any other attribute return `-EINVAL`.
The rendered text is returned in `.ok`; note the handler acquires no
mutex. -/
def adf4382_read (st : AdfState) (priv : Nat) :
    Except ErrNo String × List Ev :=
  if priv = ADF4382_FREQ then
    match adf4382_get_freq st 0 with
    | .ok v => (.ok (toString v ++ "\n"), [Ev.getFreq])
    | .error e => (.error e, [Ev.getFreq])
  else
    (.error ErrNo.einval, [])

/-- `adf4382_init` (lines 142-145): an unimplemented stub, `return 0;`. -/
def adf4382_init (st : AdfState) : Except ErrNo Unit :=
  .ok ()

/-- `notifier_from_errno`: `NOTIFY_OK` for errno 0, a `NOTIFY_STOP_MASK`
value for a nonzero errno (the exact encoding of the errno into the low bits
is irrelevant here because `adf4382_init` never fails). -/
def notifier_from_errno (r : Except ErrNo Unit) : Nat :=
  match r with
  | .ok _ => NOTIFY_OK
  | .error _ => NOTIFY_BAD

/-- `adf4382_freq_change` (lines 147-160): only on `POST_RATE_CHANGE` take
`st->lock`, run `adf4382_init`, release the lock and return
`notifier_from_errno` of its result; every other action returns `NOTIFY_OK`
immediately with no lock operation and no device access. -/
def adf4382_freq_change (st : AdfState) (action : Nat) : Nat × List Ev :=
  if action = POST_RATE_CHANGE then
    (notifier_from_errno (adf4382_init st), [Ev.lock, Ev.init, Ev.unlock])
  else
    (NOTIFY_OK, [])

/-- A trace ends with the mutex release. -/
def endsWithUnlockEv : List Ev → Bool
  | [] => false
  | [e] =>
    match e with
    | Ev.unlock => true
    | _ => false
  | _ :: rest => endsWithUnlockEv rest

/-- The whole invocation runs while holding the lock: its trace opens with
`mutex_lock` and closes with `mutex_unlock`. -/
def runsUnderLock : List Ev → Bool
  | Ev.lock :: rest => endsWithUnlockEv rest
  | _ => false

/-- The trace contains a `mutex_lock` acquisition. -/
def hasLockEv (t : List Ev) : Bool :=
  t.any fun e =>
    match e with
    | Ev.lock => true
    | _ => false

/-- A concrete device state (all fields at their zero initialization, as
left by `devm_iio_device_alloc`). -/
def adfSt0 : AdfState :=
  { spi := 0, regmap := 0, clkin := none, nbSet := false }

/-- The steps of `adf4382_probe` (lines 174-225), in source order:
allocate the iio device together with its `adf4382_state` (line 181,
zero-initialized), build the regmap register port over the spi handle
(line 185), fill in the state fields (lines 196-197), initialize the mutex
(line 199), enable the input clock (line 201), register the
`adf4382_clk_disable` unwind action (line 205), set `nb.notifier_call`
(line 209), register the clock notifier (line 210), register the
`adf4382_clk_notifier_unreg` unwind action (line 214), run `adf4382_init`
(line 218), register the iio device (line 224). -/
inductive PStep
  | allocIioDev
  | buildRegmap
  | setStateFields
  | mutexSetup
  | clkEnable
  | addClkDisableAction
  | setNotifierCallback
  | clkNotifierRegister
  | addNotifierUnregAction
  | devInit
  | iioRegister
  deriving DecidableEq

/-- The resources `adf4382_probe` acquires, in the order it acquires them:
the devm iio-device allocation, the regmap handle, the enabled clock, the
clock-notifier subscription, the registered iio device. -/
inductive Res
  | iioDevMem
  | regmapHandle
  | clkOn
  | clkSub
  | iioReg
  deriving DecidableEq

/-- Failure injection for the external calls `adf4382_probe` makes.  Each
flag makes the corresponding call fail with a representative errno (the
injected errno values are irrelevant to the claims, which only inspect
success vs failure).  `adf4382_init` has no flag: the source's stub always
returns 0, so probe's `if (ret)` branch after it is unreachable. -/
structure ProbeEnv where
  allocFails : Bool
  regmapFails : Bool
  clkEnableFails : Bool
  addDisableActionFails : Bool
  notifierRegFails : Bool
  addUnregActionFails : Bool
  iioRegisterFails : Bool

/-- Everything observable about one `adf4382_probe` run: its return value,
the constructed `adf4382_state` (as far as it got), the steps performed in
order, the resources acquired in acquisition order, the resources released
(immediately by `devm_add_action_or_reset` on its own failure, then by the
devm stack unwinding on probe failure) in release order, the clock handles
passed to the `clk_*` calls (`clk_prepare_enable`, `clk_notifier_register`,
`clk_disable_unprepare`, `clk_notifier_unregister`), and whether, after the
run and any unwind, the clock is still enabled / the notifier still
subscribed. -/
structure ProbeOut where
  result : Except ErrNo Unit
  st : Option AdfState
  steps : List PStep
  acquired : List Res
  released : List Res
  clkCalls : List (Option Nat)
  clkEnabledFinal : Bool
  subscribedFinal : Bool

/-- `adf4382_probe` (lines 174-225) over the failure-injection environment.
Transcribed branch by branch from the source; on each failure exit the devm
stack (most recent action first) is unwound, which is what the driver core
does with the devm-managed allocations and the two
`devm_add_action_or_reset` actions when probe returns an error.  Note that
`st->clkin` is never assigned anywhere in the source, so it keeps the
`none` (NULL) from the zeroed allocation, and every `clk_*` call receives
`none`. -/
def adf4382_probe (spi : Nat) (env : ProbeEnv) : ProbeOut :=
  if env.allocFails then
    { result := .error ErrNo.enomem, st := none,
      steps := [PStep.allocIioDev],
      acquired := [], released := [], clkCalls := [],
      clkEnabledFinal := false, subscribedFinal := false }
  else
    let st0 : AdfState := { spi := 0, regmap := 0, clkin := none, nbSet := false }
    if env.regmapFails then
      { result := .error ErrNo.eio, st := some st0,
        steps := [PStep.allocIioDev, PStep.buildRegmap],
        acquired := [Res.iioDevMem],
        released := [Res.iioDevMem], clkCalls := [],
        clkEnabledFinal := false, subscribedFinal := false }
    else
      let st1 : AdfState := { st0 with regmap := 1, spi := spi }
      if env.clkEnableFails then
        { result := .error ErrNo.eio, st := some st1,
          steps := [PStep.allocIioDev, PStep.buildRegmap, PStep.setStateFields,
            PStep.mutexSetup, PStep.clkEnable],
          acquired := [Res.iioDevMem, Res.regmapHandle],
          released := [Res.regmapHandle, Res.iioDevMem],
          clkCalls := [st1.clkin],
          clkEnabledFinal := false, subscribedFinal := false }
      else if env.addDisableActionFails then
        { result := .error ErrNo.enomem, st := some st1,
          steps := [PStep.allocIioDev, PStep.buildRegmap, PStep.setStateFields,
            PStep.mutexSetup, PStep.clkEnable, PStep.addClkDisableAction],
          acquired := [Res.iioDevMem, Res.regmapHandle, Res.clkOn],
          released := [Res.clkOn, Res.regmapHandle, Res.iioDevMem],
          clkCalls := [st1.clkin, st1.clkin],
          clkEnabledFinal := false, subscribedFinal := false }
      else
        let st2 : AdfState := { st1 with nbSet := true }
        if env.notifierRegFails then
          { result := .error ErrNo.einval, st := some st2,
            steps := [PStep.allocIioDev, PStep.buildRegmap, PStep.setStateFields,
              PStep.mutexSetup, PStep.clkEnable, PStep.addClkDisableAction,
              PStep.setNotifierCallback, PStep.clkNotifierRegister],
            acquired := [Res.iioDevMem, Res.regmapHandle, Res.clkOn],
            released := [Res.clkOn, Res.regmapHandle, Res.iioDevMem],
            clkCalls := [st2.clkin, st2.clkin, st2.clkin],
            clkEnabledFinal := false, subscribedFinal := false }
        else if env.addUnregActionFails then
          { result := .error ErrNo.enomem, st := some st2,
            steps := [PStep.allocIioDev, PStep.buildRegmap, PStep.setStateFields,
              PStep.mutexSetup, PStep.clkEnable, PStep.addClkDisableAction,
              PStep.setNotifierCallback, PStep.clkNotifierRegister,
              PStep.addNotifierUnregAction],
            acquired := [Res.iioDevMem, Res.regmapHandle, Res.clkOn, Res.clkSub],
            released := [Res.clkSub, Res.clkOn, Res.regmapHandle, Res.iioDevMem],
            clkCalls := [st2.clkin, st2.clkin, st2.clkin, st2.clkin],
            clkEnabledFinal := false, subscribedFinal := false }
        else
          match adf4382_init st2 with
          | .error e =>
            { result := .error e, st := some st2,
              steps := [PStep.allocIioDev, PStep.buildRegmap, PStep.setStateFields,
                PStep.mutexSetup, PStep.clkEnable, PStep.addClkDisableAction,
                PStep.setNotifierCallback, PStep.clkNotifierRegister,
                PStep.addNotifierUnregAction, PStep.devInit],
              acquired := [Res.iioDevMem, Res.regmapHandle, Res.clkOn, Res.clkSub],
              released := [Res.clkSub, Res.clkOn, Res.regmapHandle, Res.iioDevMem],
              clkCalls := [st2.clkin, st2.clkin, st2.clkin, st2.clkin],
              clkEnabledFinal := false, subscribedFinal := false }
          | .ok _ =>
            if env.iioRegisterFails then
              { result := .error ErrNo.einval, st := some st2,
                steps := [PStep.allocIioDev, PStep.buildRegmap, PStep.setStateFields,
                  PStep.mutexSetup, PStep.clkEnable, PStep.addClkDisableAction,
                  PStep.setNotifierCallback, PStep.clkNotifierRegister,
                  PStep.addNotifierUnregAction, PStep.devInit, PStep.iioRegister],
                acquired := [Res.iioDevMem, Res.regmapHandle, Res.clkOn, Res.clkSub],
                released := [Res.clkSub, Res.clkOn, Res.regmapHandle, Res.iioDevMem],
                clkCalls := [st2.clkin, st2.clkin, st2.clkin, st2.clkin],
                clkEnabledFinal := false, subscribedFinal := false }
            else
              { result := .ok (), st := some st2,
                steps := [PStep.allocIioDev, PStep.buildRegmap, PStep.setStateFields,
                  PStep.mutexSetup, PStep.clkEnable, PStep.addClkDisableAction,
                  PStep.setNotifierCallback, PStep.clkNotifierRegister,
                  PStep.addNotifierUnregAction, PStep.devInit, PStep.iioRegister],
                acquired := [Res.iioDevMem, Res.regmapHandle, Res.clkOn, Res.clkSub,
                  Res.iioReg],
                released := [],
                clkCalls := [st2.clkin, st2.clkin],
                clkEnabledFinal := true, subscribedFinal := true }

/-- The environment in which every external call of probe succeeds. -/
def envOk : ProbeEnv :=
  { allocFails := false, regmapFails := false, clkEnableFails := false,
    addDisableActionFails := false, notifierRegFails := false,
    addUnregActionFails := false, iioRegisterFails := false }

/-- The environment forcing a failure at the subscribe-Clock-Change-Reactor
step (`clk_notifier_register`). -/
def envSubFail : ProbeEnv :=
  { envOk with notifierRegFails := true }

/-- The six startup steps named by the specification's lifecycle sentence
(enable reference clock, construct Register Port, construct Device State,
run initial device initialization, subscribe Clock-Change Reactor, publish
Attribute Interface), each mapped to the probe step that performs it; the
construction of the Device State is mapped to its allocation
(`devm_iio_device_alloc`; its fields are filled at lines 196-199, likewise
before the clock is enabled). -/
def isKeyStep : PStep → Bool
  | PStep.allocIioDev => true
  | PStep.buildRegmap => true
  | PStep.clkEnable => true
  | PStep.clkNotifierRegister => true
  | PStep.devInit => true
  | PStep.iioRegister => true
  | _ => false

/-- The order the specification claims for the six key startup steps. -/
def specClaimedKeyOrder : List PStep :=
  [PStep.clkEnable, PStep.buildRegmap, PStep.allocIioDev, PStep.devInit,
   PStep.clkNotifierRegister, PStep.iioRegister]

/-- `adf4382_regmap_config` (lines 33-38). -/
structure RegmapConfig where
  reg_bits : Nat
  val_bits : Nat
  read_flag_mask : Nat
  max_register : Nat

/-- The driver's regmap configuration: 16-bit addresses, 8-bit values,
`BIT(7)` read flag on the high address byte, maximum register 0x54. -/
def adf4382_regmap_config : RegmapConfig :=
  { reg_bits := 16, val_bits := 8, read_flag_mask := 2 ^ 7,
    max_register := 0x54 }

/-- One bus transaction as issued by regmap to the spi transport. -/
inductive BusTr
  | read (addr : Nat)
  | write (addr : Nat) (val : Nat)
  deriving DecidableEq

/-- Model of the external regmap library's `regmap_read`: the readability
gate (`regmap_readable`) rejects a register above `max_register` with
`-EIO` before any bus transaction; otherwise exactly one bus read is
issued and the transport's result is returned. -/
def regmap_read_m (cfg : RegmapConfig) (bus : Nat → Except ErrNo Nat)
    (reg : Nat) : Except ErrNo Nat × List BusTr :=
  if cfg.max_register < reg then (.error ErrNo.eio, [])
  else (bus reg, [BusTr.read reg])

/-- Model of the external regmap library's `regmap_write`: the writability
gate (`regmap_writeable`) rejects a register above `max_register` with
`-EIO` before any bus transaction; otherwise exactly one bus write is
issued and the transport's result is returned. -/
def regmap_write_m (cfg : RegmapConfig) (bus : Nat → Nat → Except ErrNo Unit)
    (reg : Nat) (val : Nat) : Except ErrNo Unit × List BusTr :=
  if cfg.max_register < reg then (.error ErrNo.eio, [])
  else (bus reg val, [BusTr.write reg val])

/-- `adf4382_reg_access` (lines 40-51), the debugfs raw register accessor:
if `read_val` is non-NULL (`readMode = true`) perform `regmap_read`, else
`regmap_write` with `write_val`; on a successful write the debugfs
convention's result value is 0.  The spi transport is the pair of oracles
`busR` / `busW`. -/
def adf4382_reg_access (readMode : Bool) (busR : Nat → Except ErrNo Nat)
    (busW : Nat → Nat → Except ErrNo Unit) (reg : Nat) (writeVal : Nat) :
    Except ErrNo Nat × List BusTr :=
  if readMode then
    regmap_read_m adf4382_regmap_config busR reg
  else
    match regmap_write_m adf4382_regmap_config busW reg writeVal with
    | (.ok _, t) => (.ok 0, t)
    | (.error e, t) => (.error e, t)

/-- A transport oracle whose reads always return 0 (used by witnesses). -/
def busR0 : Nat → Except ErrNo Nat :=
  fun _ => .ok 0

/-- A transport oracle whose writes always succeed (used by witnesses). -/
def busW0 : Nat → Nat → Except ErrNo Unit :=
  fun _ _ => .ok ()

/-- Modelled from the spec: the engine-level error taxonomy of §7 for the
frequency-control engine (`BusError`, `UnsupportedFrequency`); the source's
`adf4382_set_freq` is an unimplemented stub, so the engine's failures do not
occur in src. -/
inductive EngErr
  | busError
  | unsupportedFrequency
  deriving DecidableEq

/-- Modelled from the spec: the part of the Device State the engine
contract of §4.3 speaks about — `targetFrequencyHz`, the last successfully
programmed value.  Missing from src: `struct adf4382_state` has no such
field because the programming logic is an unimplemented stub. -/
structure EngineState where
  targetFrequencyHz : Nat
  deriving DecidableEq

/-- Modelled from the spec: writing a computed register sequence through the
Register Port in order, aborting at the first failed write (§4.3).  Returns
the writes actually attempted, in order, together with the outcome. -/
def writeSequence (bus : Nat → Nat → Except EngErr Unit) :
    List (Nat × Nat) → List (Nat × Nat) × Except EngErr Unit
  | [] => ([], .ok ())
  | (a, v) :: rest =>
    match bus a v with
    | .error e => ([(a, v)], .error e)
    | .ok _ =>
      let r := writeSequence bus rest
      ((a, v) :: r.1, r.2)

/-- Modelled from the spec: `setFrequency` of §4.3, which is missing from
src (`adf4382_set_freq` is a stub returning 0 with no register writes, and
the state has no `targetFrequencyHz`).  Call the Programming Strategy to
compute the register sequence for the target at the current reference rate;
write each pair in order through the Register Port; on first write failure
abort the remaining writes, leave `targetFrequencyHz` unchanged and surface
the failure; on full success update `targetFrequencyHz`.  Returns the
outcome, the state after the call, and the writes attempted. -/
def setFrequency (strategy : Nat → Nat → Except EngErr (List (Nat × Nat)))
    (bus : Nat → Nat → Except EngErr Unit) (st : EngineState)
    (target : Nat) (refHz : Nat) :
    Except EngErr Unit × EngineState × List (Nat × Nat) :=
  match strategy target refHz with
  | .error e => (.error e, st, [])
  | .ok seq =>
    match writeSequence bus seq with
    | (attempted, .error e) => (.error e, st, attempted)
    | (attempted, .ok _) =>
      (.ok (), { st with targetFrequencyHz := target }, attempted)

/-- A single register write succeeds on this bus. -/
def busOk (bus : Nat → Nat → Except EngErr Unit) (p : Nat × Nat) : Bool :=
  match bus p.1 p.2 with
  | .ok _ => true
  | .error _ => false

/-- All writes of the list succeed on this bus (used to phrase "the first
failure happens at index N"). -/
def allWritesOk (bus : Nat → Nat → Except EngErr Unit)
    (l : List (Nat × Nat)) : Bool :=
  l.all (busOk bus)

/-- An always-succeeding engine callee (used by the C7 witness). -/
def setFreqOk : Nat → Except ErrNo Unit :=
  fun _ => .ok ()

/-- A three-write strategy used by the C6 witness. -/
def strategy3 : Nat → Nat → Except EngErr (List (Nat × Nat)) :=
  fun _ _ => .ok [(16, 1), (17, 2), (18, 3)]

/-- A bus that fails exactly on register 17 (used by the C6 witness). -/
def busFail17 : Nat → Nat → Except EngErr Unit :=
  fun a _ => if a = 17 then .error EngErr.busError else .ok ()


/-- Claim C1, counterexample: the attribute read path does not run under the
shared lock.  Its invocation (for the frequency attribute, on a concrete
device state) calls the engine's `adf4382_get_freq` but its trace contains
no `mutex_lock` at all, so the read path does not "run entirely while
holding the one shared lock" as the claim asserts for all three paths. -/
theorem C1_cex :
    (adf4382_read adfSt0 ADF4382_FREQ).2 = [Ev.getFreq] ∧
    runsUnderLock (adf4382_read adfSt0 ADF4382_FREQ).2 = false := by
  decide

/-- Claim C1, amended: the attribute write path and the Clock-Change
Reactor's re-initialization (the `POST_RATE_CHANGE` branch) each run
entirely while holding the shared lock, so those two are mutually
exclusive; the attribute read path acquires no lock (its engine call runs
unlocked). -/
theorem C1_amended (st : AdfState) (priv : Nat) (buf : String) (len : Nat) :
    runsUnderLock (adf4382_write st priv buf len).2 = true ∧
    runsUnderLock (adf4382_freq_change st POST_RATE_CHANGE).2 = true ∧
    hasLockEv (adf4382_read st priv).2 = false := by
  refine ⟨?_, ?_, ?_⟩
  · unfold adf4382_write adf4382_write_gen
    by_cases hp : priv = ADF4382_FREQ
    · simp only [hp, if_pos]
      cases h : kstrtoull10 buf <;> simp [h, adf4382_set_freq] <;> rfl
    · simp only [if_neg hp]
      rfl
  · rfl
  · unfold adf4382_read
    by_cases hp : priv = ADF4382_FREQ
    · simp only [hp, if_pos]
      rfl
    · simp only [if_neg hp]
      rfl

/-- Claim C3, code bug: writing the text "1000000000" succeeds (the handler
returns the input length 10), but the subsequent attribute read renders
"0\n" rather than "1000000000\n": `adf4382_set_freq` is an unimplemented
stub that stores nothing and `adf4382_get_freq` is a stub that leaves the
output variable at its zero initialization. -/
theorem C3_bug :
    adf4382_write adfSt0 ADF4382_FREQ "1000000000" 10 =
      (.ok 10, [Ev.lock, Ev.setFreq 1000000000, Ev.unlock]) ∧
    (adf4382_read adfSt0 ADF4382_FREQ).1 = .ok "0\n" ∧
    (Except.ok "0\n" : Except ErrNo String) ≠ .ok "1000000000\n" := by
  refine ⟨by decide, by decide, by decide⟩

/-- Claim C4, counterexample: restricted to the six startup steps the claim
names, the order `adf4382_probe` actually performs them is not the claimed
order (enable clock, build register port, construct state, init, subscribe,
publish): the state allocation and the regmap construction precede the
clock enable, and the notifier subscription precedes the initial device
initialization. -/
theorem C4_cex :
    (adf4382_probe 0 envOk).steps.filter isKeyStep ≠ specClaimedKeyOrder := by
  decide

/-- Claim C4, amended: at attach the steps occur in exactly this order:
allocate the iio device and its zeroed state, construct the regmap register
port over the spi handle, fill the state fields, initialize the mutex,
enable the reference clock, register the clock-disable unwind action, set
the notifier callback, subscribe the clock-change notifier, register the
notifier-unregister unwind action, run the initial device initialization,
and finally register (publish) the iio device. -/
theorem C4_amended :
    (adf4382_probe 0 envOk).steps =
      [PStep.allocIioDev, PStep.buildRegmap, PStep.setStateFields,
       PStep.mutexSetup, PStep.clkEnable, PStep.addClkDisableAction,
       PStep.setNotifierCallback, PStep.clkNotifierRegister,
       PStep.addNotifierUnregAction, PStep.devInit, PStep.iioRegister] := by
  decide

/-- Claim C5: the notifier callback triggers the device re-initialization
exactly on a `POST_RATE_CHANGE` notification, and any other notification
(in particular the `PRE_RATE_CHANGE` proposal) is accepted with
`NOTIFY_OK` without acquiring the lock, touching the device, or changing
any state: its trace is empty. -/
theorem C5_thm (st : AdfState) (action : Nat) :
    (Ev.init ∈ (adf4382_freq_change st action).2 ↔
      action = POST_RATE_CHANGE) ∧
    (action ≠ POST_RATE_CHANGE →
      adf4382_freq_change st action = (NOTIFY_OK, [])) := by
  unfold adf4382_freq_change
  by_cases h : action = POST_RATE_CHANGE <;> simp [h]

/-- Witness for C5 at the concrete pre-change notification
`PRE_RATE_CHANGE = 1`. -/
theorem C5_witness :
    PRE_RATE_CHANGE ≠ POST_RATE_CHANGE ∧
    adf4382_freq_change adfSt0 PRE_RATE_CHANGE = (NOTIFY_OK, []) :=
  ⟨by decide, (C5_thm adfSt0 PRE_RATE_CHANGE).2 (by decide)⟩

/-- Claim C2, code bug: `adf4382_probe` never obtains or assigns the
externally supplied reference clock (`st->clkin` is assigned nowhere in the
source, there is no `devm_clk_get`), so for every probe run, in every
environment, every `clk_*` call the driver makes receives the NULL (`none`)
handle left by the zeroed allocation, and the constructed state's `clkin`
is NULL — the core never operates on any supplied clock handle. -/
theorem C2_thm (spi : Nat) (env : ProbeEnv) :
    ((adf4382_probe spi env).clkCalls.all fun c => c.isNone) = true ∧
    ((adf4382_probe spi env).st.all fun s => s.clkin.isNone) = true := by
  rcases env with ⟨a, b, c, d, f, g, i⟩
  cases a <;> cases b <;> cases c <;> cases d <;> cases f <;> cases g <;>
    cases i <;> simp [adf4382_probe, adf4382_init]

/-- Claim C8: whenever any probe step fails, the resources already acquired
are released in strict reverse order of acquisition before the failure is
reported, and after the unwind no clock subscription is registered and the
reference clock is not enabled. -/
theorem C8_thm (spi : Nat) (env : ProbeEnv) (e : ErrNo)
    (h : (adf4382_probe spi env).result = .error e) :
    (adf4382_probe spi env).released =
      (adf4382_probe spi env).acquired.reverse ∧
    (adf4382_probe spi env).subscribedFinal = false ∧
    (adf4382_probe spi env).clkEnabledFinal = false := by
  rcases env with ⟨a, b, c, d, f, g, i⟩
  cases a <;> cases b <;> cases c <;> cases d <;> cases f <;> cases g <;>
    cases i <;>
    first
      | exact ⟨rfl, rfl, rfl⟩
      | simp [adf4382_probe, adf4382_init] at h

/-- Witness for C8: the forced failure at the subscribe-Clock-Change-Reactor
step (`clk_notifier_register` fails) releases clock, regmap and allocation
in reverse acquisition order, leaves no subscription and leaves the clock
disabled. -/
theorem C8_witness :
    (adf4382_probe 7 envSubFail).result = .error ErrNo.einval ∧
    (adf4382_probe 7 envSubFail).released =
      (adf4382_probe 7 envSubFail).acquired.reverse ∧
    (adf4382_probe 7 envSubFail).subscribedFinal = false ∧
    (adf4382_probe 7 envSubFail).clkEnabledFinal = false :=
  ⟨rfl, C8_thm 7 envSubFail ErrNo.einval rfl⟩

/-- Claim C9: a diagnostic register access (read or write) at an address
strictly above the chip's maximum register 0x54 fails with regmap's
invalid-address rejection (`-EIO` from the readable/writeable gate) and
issues no bus transaction, regardless of the transport's behavior. -/
theorem C9_thm (readMode : Bool) (busR : Nat → Except ErrNo Nat)
    (busW : Nat → Nat → Except ErrNo Unit) (reg : Nat) (writeVal : Nat)
    (h : 0x54 < reg) :
    adf4382_reg_access readMode busR busW reg writeVal =
      (.error ErrNo.eio, []) := by
  cases readMode <;>
    simp [adf4382_reg_access, regmap_read_m, regmap_write_m,
      adf4382_regmap_config, h]

/-- Witness for C9 at the concrete out-of-range address 0x100. -/
theorem C9_witness :
    (0x54 : Nat) < 0x100 ∧
    adf4382_reg_access true busR0 busW0 0x100 0 =
      (.error ErrNo.eio, []) :=
  ⟨by decide, C9_thm true busR0 busW0 0x100 0 (by decide)⟩

/-- Claim C7: for every input text to the attribute write handler (for the
frequency attribute, over an arbitrary `setFrequency` callee): if the text
is rejected by `kstrtoull` the handler fails with that parse error and its
trace holds only the mutex operations — no engine call, no bus or register
access; if the text parses to `v`, the handler calls `setFrequency` with
`v` and its outcome is `setFrequency`'s outcome (the error on failure;
success — rendered as the written length, per the attribute-write
convention — on success). -/
theorem C7_thm (setFreq : Nat → Except ErrNo Unit) (buf : String)
    (len : Nat) :
    (∀ e, kstrtoull10 buf = .error e →
      adf4382_write_gen setFreq ADF4382_FREQ buf len =
        (.error e, [Ev.lock, Ev.unlock])) ∧
    (∀ v, kstrtoull10 buf = .ok v →
      adf4382_write_gen setFreq ADF4382_FREQ buf len =
        ((match setFreq v with
          | .error e => .error e
          | .ok _ => .ok len), [Ev.lock, Ev.setFreq v, Ev.unlock])) := by
  constructor
  · intro e he
    unfold adf4382_write_gen
    simp [he]
  · intro v hv
    unfold adf4382_write_gen
    simp [hv]
    cases setFreq v <;> simp

/-- Witness for C7 at the malformed input "abc": parse error `-EINVAL`,
no engine call in the trace. -/
theorem C7_witness :
    kstrtoull10 "abc" = .error ErrNo.einval ∧
    adf4382_write_gen setFreqOk ADF4382_FREQ "abc" 3 =
      (.error ErrNo.einval, [Ev.lock, Ev.unlock]) :=
  ⟨by decide, (C7_thm setFreqOk "abc" 3).1 ErrNo.einval (by decide)⟩

/-- Claim C10: for every attribute identifier other than the frequency
attribute, the write handler and the read handler both return `-EINVAL`
with no device or bus access in their traces (the write path only takes and
releases the mutex, the read path does nothing); and on a successful write
of a parsable text the handler returns the full input length. -/
theorem C10_thm (st : AdfState) (priv : Nat) (buf : String) (len : Nat) :
    (priv ≠ ADF4382_FREQ →
      adf4382_write st priv buf len =
        (.error ErrNo.einval, [Ev.lock, Ev.unlock]) ∧
      adf4382_read st priv = (.error ErrNo.einval, [])) ∧
    (∀ v, kstrtoull10 buf = .ok v →
      adf4382_write st ADF4382_FREQ buf len =
        (.ok len, [Ev.lock, Ev.setFreq v, Ev.unlock])) := by
  constructor
  · intro hp
    constructor
    · unfold adf4382_write adf4382_write_gen
      simp [hp]
    · unfold adf4382_read
      simp [hp]
  · intro v hv
    unfold adf4382_write adf4382_write_gen
    simp [hv, adf4382_set_freq]

/-- Witness for C10 at the non-frequency attribute identifier 1 and at a
successful write of "5" (returns the input length 1). -/
theorem C10_witness :
    ((1 : Nat) ≠ ADF4382_FREQ ∧
      adf4382_write adfSt0 1 "x" 1 =
        (.error ErrNo.einval, [Ev.lock, Ev.unlock]) ∧
      adf4382_read adfSt0 1 = (.error ErrNo.einval, [])) ∧
    (kstrtoull10 "5" = .ok 5 ∧
      adf4382_write adfSt0 ADF4382_FREQ "5" 1 =
        (.ok 1, [Ev.lock, Ev.setFreq 5, Ev.unlock])) :=
  ⟨⟨by decide, (C10_thm adfSt0 1 "x" 1).1 (by decide)⟩,
   by decide, (C10_thm adfSt0 0 "5" 1).2 5 (by decide)⟩

/-- A write reported successful by `busOk` really returns `.ok ()`. -/
theorem busOk_eq_ok (bus : Nat → Nat → Except EngErr Unit) (p : Nat × Nat)
    (h : busOk bus p = true) : bus p.1 p.2 = .ok () := by
  unfold busOk at h
  cases hb : bus p.1 p.2 with
  | ok u => cases u; rfl
  | error e => rw [hb] at h; simp at h

/-- If every write before index `n` succeeds and the write at index `n`
fails, then `writeSequence` attempts exactly the first `n + 1` writes and
returns that failure. -/
theorem writeSequence_first_fail (bus : Nat → Nat → Except EngErr Unit) :
    ∀ (seq : List (Nat × Nat)) (n : Nat) (a b : Nat) (e : EngErr),
      allWritesOk bus (seq.take n) = true →
      seq[n]? = some (a, b) →
      bus a b = .error e →
      writeSequence bus seq = (seq.take (n + 1), .error e) := by
  intro seq
  induction seq with
  | nil => intro n a b e _ hn _; simp at hn
  | cons hd tl ih =>
    intro n a b e hok hn he
    obtain ⟨p, q⟩ := hd
    cases n with
    | zero =>
      simp at hn
      obtain ⟨hp, hq⟩ := hn
      subst hp; subst hq
      unfold writeSequence
      rw [he]
      simp
    | succ m =>
      rw [List.take_succ_cons] at hok
      unfold allWritesOk at hok
      rw [List.all_cons, Bool.and_eq_true] at hok
      obtain ⟨h1, h2⟩ := hok
      have h0 : bus p q = .ok () := busOk_eq_ok bus (p, q) h1
      rw [List.getElem?_cons_succ] at hn
      have ihr := ih m a b e h2 hn he
      unfold writeSequence
      rw [h0, ihr]
      simp [List.take_succ_cons]

/-- Claim C6 (engine modelled from the spec, §4.3): a `setFrequency` call
whose register-write sequence has its first failure at the N-th write
aborts there (exactly the first N + 1 writes are attempted), surfaces the
failure, and leaves the device state's `targetFrequencyHz` exactly as it
was before the call. -/
theorem C6_thm (strategy : Nat → Nat → Except EngErr (List (Nat × Nat)))
    (bus : Nat → Nat → Except EngErr Unit) (st : EngineState)
    (target refHz : Nat) (seq : List (Nat × Nat)) (n a b : Nat)
    (e : EngErr)
    (hs : strategy target refHz = .ok seq)
    (hok : allWritesOk bus (seq.take n) = true)
    (hn : seq[n]? = some (a, b))
    (he : bus a b = .error e) :
    setFrequency strategy bus st target refHz =
      (.error e, st, seq.take (n + 1)) := by
  unfold setFrequency
  simp only [hs, writeSequence_first_fail bus seq n a b e hok hn he]

/-- Witness for C6: a three-write sequence on a bus whose write to register
17 fails; the call attempts only the first two writes, returns the bus
error and leaves `targetFrequencyHz` at its prior value 5. -/
theorem C6_witness :
    strategy3 1000 100 = .ok [(16, 1), (17, 2), (18, 3)] ∧
    allWritesOk busFail17 ([(16, 1), (17, 2), (18, 3)].take 1) = true ∧
    ([(16, 1), (17, 2), (18, 3)] : List (Nat × Nat))[1]? = some (17, 2) ∧
    busFail17 17 2 = .error EngErr.busError ∧
    setFrequency strategy3 busFail17 { targetFrequencyHz := 5 } 1000 100 =
      (.error EngErr.busError, { targetFrequencyHz := 5 },
        [(16, 1), (17, 2)]) :=
  ⟨by decide, by decide, by decide, by decide,
    C6_thm strategy3 busFail17 { targetFrequencyHz := 5 } 1000 100
      [(16, 1), (17, 2), (18, 3)] 1 17 2 EngErr.busError
      (by decide) (by decide) (by decide) (by decide)⟩
